import Mathlib

/-!
Verification of the Freshdesk APIv2 client library (src/lib/client.js)
against its natural-language specification.

The development shallowly embeds the request/response translation layer:
the response classifier `createResponseHandler`, the request builder
`makeRequest`, the facade operations used by the claims, and the
`FreshdeskError` constructor.  JavaScript dynamics that the code relies on
are made explicit: `undefined` versus `null`, JS truthiness, property
access throwing a TypeError on `null`/`undefined`, and a callback slot
that may itself be `undefined`.  The external JSON codec (`JSON.parse`,
`JSON.stringify`) is a collaborator of the core, so it is a parameter of
the embedded functions rather than re-implemented.
-/

/-- A JSON value, the result of a successful `JSON.parse`.
Objects keep their fields as an association list. -/
inductive Json where
  | null : Json
  | bool : Bool → Json
  | num : Int → Json
  | str : String → Json
  | arr : List Json → Json
  | obj : List (String × Json) → Json

/-- A JavaScript value slot that may be `undefined` or hold a JSON value.
JavaScript `null` is `JVal.val Json.null`. -/
inductive JVal where
  | undefined : JVal
  | val : Json → JVal

/-- JavaScript truthiness of a JSON value: `null`, `false`, `0` and the
empty string are falsy; every other value, including every object and
array, is truthy. -/
def jsTruthy : Json → Bool
  | .null => false
  | .bool b => b
  | .num n => n != 0
  | .str s => s != ""
  | .arr _ => true
  | .obj _ => true

/-- JavaScript truthiness of a possibly-`undefined` slot. -/
def jvTruthy : JVal → Bool
  | .undefined => false
  | .val j => jsTruthy j

/-- JavaScript property read `v[k]`.  On `null` it throws a TypeError;
on objects it looks the key up (missing keys give `undefined`); on
primitives and arrays the named property does not exist, giving
`undefined`. -/
def getProp : Json → String → Except String JVal
  | .null, _ => .error "TypeError: Cannot read properties of null"
  | .obj fields, k =>
      .ok (match fields.lookup k with
           | some v => .val v
           | none => .undefined)
  | _, _ => .ok .undefined

/-- A transport-level error object produced by the `request` collaborator
(e.g. a connection refusal).  It is carried through unmodified, so only
an identifying message is modelled. -/
structure TransportError where
  message : String
deriving DecidableEq, Repr

/-- The part of the transport response the handler reads: the status code
and the `request.path` used by the debug trace.  The handler may also
receive no response at all (`undefined`) next to a transport error. -/
structure JsResponse where
  statusCode : Nat
  requestPath : String
deriving DecidableEq, Repr

/-- The `FreshdeskError` object from client.js lines 320 to 325.  The
`stack` field captured from `new Error()` is environment-dependent and
not observable through any claim, so it is not modelled. -/
structure FreshdeskError where
  name : String
  message : JVal
  data : JVal

/-- The `FreshdeskError` constructor: `this.message = message || fallback`
applies the generic fallback string whenever the supplied message is
falsy (in particular when it is `undefined` or the empty string). -/
def FreshdeskError.make (message data : JVal) : FreshdeskError :=
  { name := "FreshdeskError"
    message := if jvTruthy message then message
               else .val (.str "Error in Freshdesk\x27s client API")
    data := data }

/-- The error argument handed to the caller callback: either the
transport error object itself or a `FreshdeskError`. -/
inductive CbError where
  | transport : TransportError → CbError
  | api : FreshdeskError → CbError

/-- What the handler body does with the callback: either it reaches a
`return cb(...)` statement with the given arguments, or an exception is
thrown before any callback call. -/
inductive CbCall where
  | call : Option CbError → JVal → CbCall
  | thrown : String → CbCall

/-- The classification performed by the handler body in
`createResponseHandler` (client.js lines 13 to 57), parameterized by the
external `JSON.parse` collaborator (`parse body = none` models a parse
exception).  Notes on JavaScript dynamics made explicit here:
- in the transport-error branch the debug template literal evaluates
  `response.request.path`; when no response accompanies the error this
  throws a TypeError before `cb(error)` is reached;
- in the 200/201 branch `data` is still `null` when `JSON.parse` threw,
  so the parse-failure `FreshdeskError` carries a `null` payload;
- in the default branch `data.description` throws a TypeError when the
  parsed body is `null` (i.e. the body was the JSON text "null"). -/
def classifyResponse (parse : String → Option Json)
    (error : Option TransportError) (response : Option JsResponse)
    (body : String) : CbCall :=
  match error with
  | some e =>
      match response with
      | none => .thrown "TypeError: Cannot read properties of undefined"
      | some _ => .call (some (.transport e)) .undefined
  | none =>
      match response with
      | none => .thrown "TypeError: Cannot read properties of undefined"
      | some r =>
          if r.statusCode = 200 ∨ r.statusCode = 201 then
            match parse body with
            | some d => .call none (.val d)
            | none =>
                .call (some (.api (FreshdeskError.make
                  (.val (.str "Not a JSON response from API"))
                  (.val .null)))) .undefined
          else if r.statusCode = 204 then
            .call none (.val .null)
          else
            match parse body with
            | none =>
                .call (some (.api (FreshdeskError.make
                  (.val (.str "Not a JSON response from API"))
                  (.val .null)))) .undefined
            | some d =>
                match getProp d "description" with
                | .error m => .thrown m
                | .ok desc =>
                    .call (some (.api (FreshdeskError.make desc (.val d))))
                      .undefined

/-- The observable outcome of running the handler on one transport
outcome: the caller callback is invoked with the given arguments, or an
exception escapes and the callback is never invoked. -/
inductive HandlerResult where
  | callbackInvoked : Option CbError → JVal → HandlerResult
  | exceptionThrown : String → HandlerResult

/-- `createResponseHandler(cb)` from client.js line 12: the returned
closure classifies the transport outcome and then calls `cb`.
`cbDefined` records whether the captured `cb` is a function; calling an
`undefined` callback throws a TypeError, so the caller then receives
nothing. -/
def createResponseHandler (cbDefined : Bool) (parse : String → Option Json)
    (error : Option TransportError) (response : Option JsResponse)
    (body : String) : HandlerResult :=
  match classifyResponse parse error response body with
  | .thrown m => .exceptionThrown m
  | .call e d =>
      if cbDefined then .callbackInvoked e d
      else .exceptionThrown "TypeError: cb is not a function"

/-- Whether the handler outcome delivered anything to the caller. -/
def HandlerResult.invokesCallback : HandlerResult → Bool
  | .callbackInvoked _ _ => true
  | .exceptionThrown _ => false

/-- The `message` of the delivered API error, when the outcome is a
callback invocation with a `FreshdeskError`. -/
def HandlerResult.errMessage : HandlerResult → Option JVal
  | .callbackInvoked (some (.api e)) _ => some e.message
  | _ => none

/-- The value a facade passes into the `qs` or `data` parameter of
`makeRequest`: JavaScript `null`, `undefined` (argument not supplied),
a JSON-encodable value, or a function value (which is what
`listAllConversations` erroneously passes for `data`). -/
inductive ReqData where
  | jsNull : ReqData
  | jsUndefined : ReqData
  | value : Json → ReqData
  | func : ReqData

/-- JavaScript truthiness of a `makeRequest` argument: `null` and
`undefined` are falsy, functions are truthy, JSON values follow
`jsTruthy`. -/
def reqTruthy : ReqData → Bool
  | .jsNull => false
  | .jsUndefined => false
  | .value j => jsTruthy j
  | .func => true

/-- The `body` slot of the request options: not set at all, set to
`undefined` (what `JSON.stringify` returns on a function), or set to a
JSON text. -/
inductive BodySlot where
  | absent : BodySlot
  | undefinedVal : BodySlot
  | jsonText : String → BodySlot
deriving DecidableEq, Repr

/-- The result of `JSON.stringify` assigned to `options.body`,
parameterized by the external stringifier for proper JSON values.
`JSON.stringify` of a function is `undefined`; of `null` it is the text
"null" (these two branches are only reachable when the corresponding
argument is truthy). -/
def stringifyBody (stringify : Json → String) : ReqData → BodySlot
  | .value j => .jsonText (stringify j)
  | .func => .undefinedVal
  | .jsNull => .jsonText "null"
  | .jsUndefined => .undefinedVal

/-- The headers object built by `makeRequest`. -/
structure Headers where
  contentType : String
  authorization : String
deriving DecidableEq, Repr

/-- The request options object handed to the transport collaborator. -/
structure RequestOptions where
  method : String
  headers : Headers
  url : String
  qs : ReqData
  body : BodySlot

/-- What `makeRequest` submits to the transport: the options object and
the completion handler `createResponseHandler(cb)`; `handlerCb` records
whether the `cb` argument captured by that handler is a function. -/
structure SubmittedRequest where
  options : RequestOptions
  handlerCb : Bool

/-- `makeRequest` from client.js lines 60 to 76: builds the options with
unconditional `Content-Type` and `Authorization` headers, attaches
`JSON.stringify(data)` as the body only when `data` is truthy
(`if (data)`), and submits with `createResponseHandler(cb)` as the
completion handler. -/
def makeRequest (stringify : Json → String) (method auth url : String)
    (qs data : ReqData) (cbDefined : Bool) : SubmittedRequest :=
  { options :=
      { method := method
        headers := { contentType := "application/json", authorization := auth }
        url := url
        qs := qs
        body := if reqTruthy data then stringifyBody stringify data
                else .absent }
    handlerCb := cbDefined }

/-- Running one call end to end: the transport resolves the submitted
request with an outcome, and the handler installed by `makeRequest`
processes it. -/
def runCall (parse : String → Option Json) (req : SubmittedRequest)
    (error : Option TransportError) (response : Option JsResponse)
    (body : String) : HandlerResult :=
  createResponseHandler req.handlerCb parse error response body

/-- The Freshdesk client instance state: base URL and the Basic-auth
credential computed once at construction. -/
structure Freshdesk where
  baseUrl : String
  auth : String

/-- The `Freshdesk` constructor (client.js lines 86 to 90), with the
base64 encoder as an external collaborator. -/
def Freshdesk.construct (base64 : String → String)
    (baseUrl apiKey : String) : Freshdesk :=
  { baseUrl := baseUrl, auth := "Basic " ++ base64 (apiKey ++ ":X") }

/-- `getTicket(id, cb)` (client.js line 131):
`makeRequest('GET', this._auth, baseUrl + "/api/v2/tickets/" + id, null, null, cb)`. -/
def Freshdesk.getTicket (stringify : Json → String) (c : Freshdesk)
    (id : Nat) (cbIsFunction : Bool) : SubmittedRequest :=
  makeRequest stringify "GET" c.auth
    (c.baseUrl ++ "/api/v2/tickets/" ++ toString id)
    .jsNull .jsNull cbIsFunction

/-- `listAllConversations(id, cb)` (client.js line 147): the source calls
`makeRequest('GET', this._auth, url, null, cb)` with only five arguments,
so the caller callback is bound to the `data` parameter (a function
value) and the `cb` parameter of `makeRequest` is `undefined`. -/
def Freshdesk.listAllConversations (stringify : Json → String)
    (c : Freshdesk) (id : Nat) (cbIsFunction : Bool) : SubmittedRequest :=
  makeRequest stringify "GET" c.auth
    (c.baseUrl ++ "/api/v2/tickets/" ++ toString id ++ "/conversations")
    .jsNull (if cbIsFunction then .func else .jsUndefined) false

/-- `listAllTimeEntries(id, cb)` (client.js line 151), a sibling facade
that does pass all six arguments, for contrast with
`listAllConversations`. -/
def Freshdesk.listAllTimeEntries (stringify : Json → String)
    (c : Freshdesk) (id : Nat) (cbIsFunction : Bool) : SubmittedRequest :=
  makeRequest stringify "GET" c.auth
    (c.baseUrl ++ "/api/v2/tickets/" ++ toString id ++ "/time_entries")
    .jsNull .jsNull cbIsFunction

/-- Associativity of string concatenation, used to normalize URL
templates built by the facades. -/
theorem str_append_assoc (a b c : String) : a ++ b ++ c = a ++ (b ++ c) := by
  apply String.ext
  simp [String.data_append]

/-- A concrete `JSON.parse` instance for witnesses: parses the body
"[1]" to the array [1] and rejects everything else. -/
def parseArrOne : String → Option Json := fun s =>
  if s = "[1]" then some (.arr [.num 1]) else none

/-- A concrete `JSON.parse` instance for witnesses: parses a body whose
`description` field is the string "Name has already been taken". -/
def parseDescTaken : String → Option Json := fun s =>
  if s = "\x7b\"description\":\"Name has already been taken\"\x7d" then
    some (.obj [("description", .str "Name has already been taken")])
  else none

/-- A concrete `JSON.parse` instance for counterexamples: parses a body
whose `description` field is the empty string. -/
def parseEmptyDesc : String → Option Json := fun s =>
  if s = "\x7b\"description\":\"\"\x7d" then
    some (.obj [("description", .str "")])
  else none

/-- A concrete `JSON.parse` instance: parses the body text of an empty
JSON object. -/
def parseEmptyObj : String → Option Json := fun s =>
  if s = "\x7b\x7d" then some (.obj []) else none

/-- A concrete `JSON.parse` instance: parses the body text "null" to the
JSON value `null`. -/
def parseNullText : String → Option Json := fun s =>
  if s = "null" then some .null else none

/-- C1: the claim states that every facade operation, in particular
`listAllConversations` invoked with a ticket id and a callback, invokes
the caller callback exactly once.  The code refutes it:
`listAllConversations` passes only five arguments to `makeRequest`, so
the callback is bound to the `data` parameter and the handler captures
`undefined` as its `cb`; for every transport outcome the handler either
throws before reaching `cb` or throws invoking `undefined`, so the
caller callback is invoked zero times, never once. -/
theorem C1_listAllConversations_drops_callback
    (stringify : Json → String) (parse : String → Option Json)
    (c : Freshdesk) (id : Nat) (error : Option TransportError)
    (response : Option JsResponse) (body : String) :
    (runCall parse (c.listAllConversations stringify id true)
        error response body).invokesCallback = false := by
  cases h : classifyResponse parse error response body <;>
    simp [runCall, Freshdesk.listAllConversations, makeRequest,
      createResponseHandler, h, HandlerResult.invokesCallback]

/-- C2: the claim states that a transport error is always delivered
unmodified even when no response value accompanies it, the debug trace
not altering control flow.  The code refutes it: with `error` present
and `response` equal to `undefined` (the usual shape for a connection
refusal), the debug template literal evaluates `response.request.path`
and throws a TypeError, so the callback never receives the error. -/
theorem C2_transport_error_without_response_throws
    (parse : String → Option Json) (e : TransportError) (body : String) :
    createResponseHandler true parse (some e) none body
      = .exceptionThrown "TypeError: Cannot read properties of undefined" :=
  rfl

/-- C3: for every response with status 200 or 201 whose body parses as
JSON, the callback receives a null error and the parsed value. -/
theorem C3_success_status_parses_json
    (parse : String → Option Json) (r : JsResponse) (body : String)
    (j : Json) (hs : r.statusCode = 200 ∨ r.statusCode = 201)
    (hp : parse body = some j) :
    createResponseHandler true parse none (some r) body
      = .callbackInvoked none (.val j) := by
  simp [createResponseHandler, classifyResponse, hs, hp]

/-- Witness for C3 at status 200 with body "[1]". -/
theorem C3_witness :
    createResponseHandler true parseArrOne none
        (some ⟨200, "/api/v2/tickets"⟩) "[1]"
      = .callbackInvoked none (.val (.arr [.num 1])) :=
  C3_success_status_parses_json parseArrOne ⟨200, "/api/v2/tickets"⟩ "[1]"
    (.arr [.num 1]) (Or.inl rfl) rfl

/-- C4: for every response whose status is not 204 and whose body does
not parse as JSON, the callback receives a FreshdeskError with message
exactly "Not a JSON response from API" and a null data payload; the
single statement covers both the 200/201 branch and the default branch,
which produce the same result. -/
theorem C4_non_json_body_api_error
    (parse : String → Option Json) (r : JsResponse) (body : String)
    (hs : r.statusCode ≠ 204) (hp : parse body = none) :
    createResponseHandler true parse none (some r) body
      = .callbackInvoked (some (.api { name := "FreshdeskError",
                                       message := .val (.str "Not a JSON response from API"),
                                       data := .val .null })) .undefined := by
  by_cases h2 : r.statusCode = 200 ∨ r.statusCode = 201 <;>
    simp [createResponseHandler, classifyResponse, h2, hs, hp,
      FreshdeskError.make, jvTruthy, jsTruthy]

/-- Witness for C4 at status 500 with a body that does not parse. -/
theorem C4_witness :
    createResponseHandler true (fun _ => none) none
        (some ⟨500, "/api/v2/tickets"⟩) "not json"
      = .callbackInvoked (some (.api { name := "FreshdeskError",
                                       message := .val (.str "Not a JSON response from API"),
                                       data := .val .null })) .undefined :=
  C4_non_json_body_api_error (fun _ => none) ⟨500, "/api/v2/tickets"⟩
    "not json" (by decide) rfl

/-- C5 counterexample: at status 409 with body parsed to an object whose
`description` field is the empty string, the delivered message is the
generic fallback produced by `message || ...` in the FreshdeskError
constructor, not the description field value, so the claim that the
message always equals the description field fails. -/
theorem C5_counterexample :
    createResponseHandler true parseEmptyDesc none
        (some ⟨409, "/api/v2/companies"⟩) "\x7b\"description\":\"\"\x7d"
      = .callbackInvoked (some (.api { name := "FreshdeskError",
                                       message := .val (.str "Error in Freshdesk\x27s client API"),
                                       data := .val (.obj [("description", .str "")]) })) .undefined ∧
    ("Error in Freshdesk\x27s client API" : String) ≠ "" :=
  ⟨rfl, by decide⟩

/-- C5 as amended: for every response whose status is outside
200/201/204 and whose body parses as JSON with a truthy `description`
field, the callback receives a FreshdeskError whose message is that
description value and whose data payload is the full parsed body; the
statement treats 409 like every other non-success status. -/
theorem C5_error_status_truthy_description
    (parse : String → Option Json) (r : JsResponse) (body : String)
    (j : Json) (desc : JVal)
    (hs : ¬(r.statusCode = 200 ∨ r.statusCode = 201))
    (h4 : r.statusCode ≠ 204) (hp : parse body = some j)
    (hd : getProp j "description" = .ok desc) (ht : jvTruthy desc = true) :
    createResponseHandler true parse none (some r) body
      = .callbackInvoked (some (.api { name := "FreshdeskError",
                                       message := desc, data := .val j })) .undefined := by
  simp [createResponseHandler, classifyResponse, hs, h4, hp, hd,
    FreshdeskError.make, ht]

/-- Witness for C5 at status 409 with the specification example body. -/
theorem C5_witness :
    createResponseHandler true parseDescTaken none
        (some ⟨409, "/api/v2/companies"⟩)
        "\x7b\"description\":\"Name has already been taken\"\x7d"
      = .callbackInvoked (some (.api { name := "FreshdeskError",
                                       message := .val (.str "Name has already been taken"),
                                       data := .val (.obj
                                       [("description", .str "Name has already been taken")]) }))
          .undefined :=
  C5_error_status_truthy_description parseDescTaken
    ⟨409, "/api/v2/companies"⟩
    "\x7b\"description\":\"Name has already been taken\"\x7d"
    (.obj [("description", .str "Name has already been taken")])
    (.val (.str "Name has already been taken"))
    (by decide) (by decide) rfl rfl rfl

/-- C6: for every response with status 204 the callback receives a null
error and a strictly null data value, whatever the body contains and
whether or not it parses; the parse collaborator is never consulted. -/
theorem C6_status_204_delivers_null_success
    (parse : String → Option Json) (path body : String) :
    createResponseHandler true parse none (some ⟨204, path⟩) body
      = .callbackInvoked none (.val .null) :=
  rfl

/-- C7 counterexample: at status 400 with body parsed to an object with
no `description` field, the delivered message is the generic fallback
string, not `undefined`: the FreshdeskError constructor applies
`message || fallback`, so the claim that no fallback is applied fails. -/
theorem C7_counterexample :
    createResponseHandler true parseEmptyObj none
        (some ⟨400, "/api/v2/tickets"⟩) "\x7b\x7d"
      = .callbackInvoked (some (.api { name := "FreshdeskError",
                                       message := .val (.str "Error in Freshdesk\x27s client API"),
                                       data := .val (.obj []) })) .undefined ∧
    JVal.val (.str "Error in Freshdesk\x27s client API") ≠ JVal.undefined :=
  ⟨rfl, fun h => JVal.noConfusion h⟩

/-- C7 as amended: for every response whose status is outside
200/201/204 and whose body parses as JSON without a `description`
field, the delivered FreshdeskError carries the generic fallback
message "Error in Freshdesk\x27s client API" (the constructor applies
`message || fallback`), with the full parsed body as payload. -/
theorem C7_missing_description_fallback_message
    (parse : String → Option Json) (r : JsResponse) (body : String)
    (j : Json)
    (hs : ¬(r.statusCode = 200 ∨ r.statusCode = 201))
    (h4 : r.statusCode ≠ 204) (hp : parse body = some j)
    (hd : getProp j "description" = .ok .undefined) :
    createResponseHandler true parse none (some r) body
      = .callbackInvoked (some (.api { name := "FreshdeskError",
                                       message := .val (.str "Error in Freshdesk\x27s client API"),
                                       data := .val j })) .undefined := by
  simp [createResponseHandler, classifyResponse, hs, h4, hp, hd,
    FreshdeskError.make, jvTruthy]

/-- Witness for C7 at status 422 with an empty-object body. -/
theorem C7_witness :
    createResponseHandler true parseEmptyObj none
        (some ⟨422, "/api/v2/contacts"⟩) "\x7b\x7d"
      = .callbackInvoked (some (.api { name := "FreshdeskError",
                                       message := .val (.str "Error in Freshdesk\x27s client API"),
                                       data := .val (.obj []) })) .undefined :=
  C7_missing_description_fallback_message parseEmptyObj
    ⟨422, "/api/v2/contacts"⟩ "\x7b\x7d" (.obj [])
    (by decide) (by decide) rfl rfl

/-- C8 counterexample: with `bodyData` supplied as the number 0 (present
but falsy), `makeRequest` attaches no body at all, because `if (data)`
tests truthiness rather than presence; the claim that a present falsy
body is serialized and attached fails. -/
theorem C8_counterexample :
    (makeRequest (fun _ => "0") "POST" "Basic xyz"
        "https://demo.freshdesk.com/api/v2/tickets"
        .jsNull (.value (.num 0)) true).options.body = .absent ∧
    BodySlot.absent ≠ .jsonText "0" :=
  ⟨rfl, by decide⟩

/-- C8 as amended: the Content-Type and Authorization headers are set
unconditionally; the body carries `JSON.stringify(bodyData)` exactly
when `bodyData` is truthy under JavaScript truthiness, and no body is
attached when it is falsy (absent, null, 0, empty string or false). -/
theorem C8_truthy_body_and_unconditional_headers
    (stringify : Json → String) (method auth url : String)
    (qs data : ReqData) (cbIsFunction : Bool) :
    (makeRequest stringify method auth url qs data
        cbIsFunction).options.headers.contentType = "application/json" ∧
    (makeRequest stringify method auth url qs data
        cbIsFunction).options.headers.authorization = auth ∧
    (reqTruthy data = true →
      (makeRequest stringify method auth url qs data
        cbIsFunction).options.body = stringifyBody stringify data) ∧
    (reqTruthy data = false →
      (makeRequest stringify method auth url qs data
        cbIsFunction).options.body = .absent) := by
  refine ⟨rfl, rfl, fun ht => ?_, fun hf => ?_⟩ <;>
    simp [makeRequest, *]

/-- Witness for C8 with a truthy object body. -/
theorem C8_witness :
    (makeRequest (fun _ => "\x7b\x7d") "PUT" "Basic abc"
        "https://demo.freshdesk.com/api/v2/companies/1"
        .jsNull (.value (.obj [])) true).options.body
      = .jsonText "\x7b\x7d" :=
  (C8_truthy_body_and_unconditional_headers (fun _ => "\x7b\x7d") "PUT"
    "Basic abc" "https://demo.freshdesk.com/api/v2/companies/1"
    .jsNull (.value (.obj [])) true).2.2.1 rfl

/-- C9: `getTicket` with id 42 builds a GET request for exactly
baseUrl/api/v2/tickets/42 with null query parameters and no body. -/
theorem C9_getTicket_request_shape (stringify : Json → String)
    (c : Freshdesk) (cbIsFunction : Bool) :
    (c.getTicket stringify 42 cbIsFunction).options.method = "GET" ∧
    (c.getTicket stringify 42 cbIsFunction).options.url
      = c.baseUrl ++ "/api/v2/tickets/42" ∧
    (c.getTicket stringify 42 cbIsFunction).options.qs = .jsNull ∧
    (c.getTicket stringify 42 cbIsFunction).options.body = .absent := by
  refine ⟨rfl, ?_, rfl, rfl⟩
  show c.baseUrl ++ "/api/v2/tickets/" ++ toString (42 : Nat)
      = c.baseUrl ++ "/api/v2/tickets/42"
  rw [str_append_assoc]
  rfl

/-- C10: the claim states that when an error-range body parses to the
JSON value `null`, reading its `description` field is safe and a
classified result is still delivered.  The code refutes it:
`data.description` with `data = null` throws a TypeError, the exception
escapes the handler and the callback receives nothing. -/
theorem C10_json_null_body_throws
    (parse : String → Option Json) (r : JsResponse) (body : String)
    (hs : ¬(r.statusCode = 200 ∨ r.statusCode = 201))
    (h4 : r.statusCode ≠ 204) (hp : parse body = some .null) :
    createResponseHandler true parse none (some r) body
      = .exceptionThrown "TypeError: Cannot read properties of null" := by
  simp [createResponseHandler, classifyResponse, hs, h4, hp, getProp]

/-- Witness for C10 at status 500 with the body text "null". -/
theorem C10_witness :
    createResponseHandler true parseNullText none
        (some ⟨500, "/api/v2/tickets"⟩) "null"
      = .exceptionThrown "TypeError: Cannot read properties of null" :=
  C10_json_null_body_throws parseNullText ⟨500, "/api/v2/tickets"⟩ "null"
    (by decide) (by decide) rfl
